import Mathlib

/-!
Shallow embedding of the Gold Coin Finance consultancy billing system
(`app.py`): the data model (customers, per-customer service charges,
payments, service catalog), the totals computed by the `bill` and
`download_pdf` routes, the ledger-row construction of
`generate_ledger_pdf`, and the row-level mutation routes
(`edit_catalog_service`, `add_services`, `delete_multiple_services`).

Currency amounts are validated decimal values; they are embedded as
integers in the smallest currency unit, which keeps the arithmetic
exact (the claims are sum, difference and ordering properties, and
none depends on the unit).  Timestamps and dates are ISO-8601 strings
in the store, compared lexicographically by SQL `ORDER BY`; that order
is isomorphic to numeric order on the corresponding numbers, so they
are embedded as naturals.
-/

namespace Billing

/-- A row of the `customers` table. -/
structure Customer where
  id : Nat
  name : String
  mobile : String
  village : String
  bank_name : String
  loan_amount : ℤ
  deriving DecidableEq

/-- A row of the `services` table: one charge belonging to one customer,
with `created_at` set at insertion time. -/
structure Service where
  id : Nat
  customer_id : Nat
  service_name : String
  charge : ℤ
  created_at : Nat
  deriving DecidableEq

/-- A row of the `payments` table: a user-supplied (possibly backdated)
date and an amount. -/
structure Payment where
  id : Nat
  customer_id : Nat
  date : Nat
  amount : ℤ
  deriving DecidableEq

/-- A row of the `service_catalog` table. -/
structure CatalogEntry where
  id : Nat
  service_name : String
  default_charge : ℤ
  is_active : Nat
  deriving DecidableEq

/-- The database: the four tables, each in stored (rowid) order. -/
structure Db where
  customers : List Customer
  services : List Service
  payments : List Payment
  service_catalog : List CatalogEntry
  deriving DecidableEq

/-- `SELECT * FROM customers WHERE id = ?` followed by `fetchone`. -/
def findCustomer (db : Db) (customer_id : Nat) : Option Customer :=
  db.customers.find? (fun c => c.id = customer_id)

/-- `SELECT * FROM services WHERE customer_id = ?`: the rows for one
customer in stored order (the query has no ORDER BY clause). -/
def servicesFor (db : Db) (customer_id : Nat) : List Service :=
  db.services.filter (fun s => s.customer_id = customer_id)

/-- The ordering key of `ORDER BY date` on payments. -/
def dateLE (a b : Payment) : Prop := a.date ≤ b.date

instance : DecidableRel dateLE := fun a b => Nat.decLe a.date b.date

instance : IsTotal Payment dateLE := ⟨fun a b => Nat.le_total a.date b.date⟩

instance : IsTrans Payment dateLE := ⟨fun _ _ _ => Nat.le_trans⟩

/-- `ORDER BY date` ascending, as a stable insertion sort on the date. -/
def sortByDate (l : List Payment) : List Payment := l.insertionSort dateLE

/-- `SELECT * FROM payments WHERE customer_id = ? ORDER BY date`. -/
def paymentsFor (db : Db) (customer_id : Nat) : List Payment :=
  sortByDate (db.payments.filter (fun p => p.customer_id = customer_id))

/-- `total_charges = sum(service['charge'] for service in services)`:
a left fold starting at 0, as Python `sum`. -/
def total_charges (services : List Service) : ℤ :=
  services.foldl (fun acc s => acc + s.charge) 0

/-- `total_received = sum(payment['amount'] for payment in payments)`. -/
def total_received (payments : List Payment) : ℤ :=
  payments.foldl (fun acc p => acc + p.amount) 0

/-- `balance = total_charges - total_received`. -/
def balance (services : List Service) (payments : List Payment) : ℤ :=
  total_charges services - total_received payments

/-- Row role in the generated ledger table (the header row of column
titles is presentation and is excluded). -/
inductive Role where
  | charge
  | chargeSubtotal
  | payment
  | balanceFinal
  deriving DecidableEq

/-- One data row of `ledger_data`: the date cell (or blank), the
particulars text, the credit cell, the received cell, and the balance
cell, holding the numeric values that `generate_ledger_pdf` formats
into the table strings. -/
structure LedgerRow where
  role : Role
  date : Option Nat
  particulars : String
  credit : Option ℤ
  received : Option ℤ
  balance : ℤ
  deriving DecidableEq

/-- One iteration of the services loop (lines 477-486):
`running_balance += service['charge']`, then append the charge row. -/
def chargeStep (acc : List LedgerRow × ℤ) (s : Service) : List LedgerRow × ℤ :=
  let rb := acc.2 + s.charge
  (acc.1 ++ [⟨Role.charge, some s.created_at, s.service_name, some s.charge, none, rb⟩], rb)

/-- One iteration of the payments loop (lines 499-507):
`running_balance -= payment['amount']`, then append the payment row. -/
def paymentStep (acc : List LedgerRow × ℤ) (p : Payment) : List LedgerRow × ℤ :=
  let rb := acc.2 - p.amount
  (acc.1 ++ [⟨Role.payment, some p.date, "Payment Received", none, some p.amount, rb⟩], rb)

/-- The `TOTAL CHARGES` subtotal row (lines 489-496). -/
def subtotalRow (total_charges : ℤ) : LedgerRow :=
  ⟨Role.chargeSubtotal, none, "TOTAL CHARGES", some total_charges, none, total_charges⟩

/-- The `FINAL BALANCE DUE` row (lines 510-516). -/
def finalRow (balance : ℤ) : LedgerRow :=
  ⟨Role.balanceFinal, none, "FINAL BALANCE DUE", none, none, balance⟩

/-- The data rows built by `generate_ledger_pdf` (lines 474-516):
`running_balance = 0`; one row per service in the given order; a
`TOTAL CHARGES` row if any service exists; one row per payment in the
given order; the final balance row. -/
def ledger_data (services : List Service) (payments : List Payment)
    (total_charges balance : ℤ) : List LedgerRow :=
  let afterCharges := services.foldl chargeStep ([], 0)
  let withSubtotal :=
    if services.isEmpty then afterCharges.1
    else afterCharges.1 ++ [subtotalRow total_charges]
  let afterPayments := payments.foldl paymentStep (withSubtotal, afterCharges.2)
  afterPayments.1 ++ [finalRow balance]

/-- The two trailing summary messages: `ACCOUNT FULLY PAID - Balance:
Rs. 0` and `Outstanding Balance: Rs. <amount>` (each ending in a
slash-dash); the formatted amount is carried as the payload. -/
inductive SummaryMsg where
  | fullyPaid
  | outstanding (amount : ℤ)
  deriving DecidableEq

/-- Lines 586-589: the summary paragraph choice. -/
def summary_line (balance : ℤ) : SummaryMsg :=
  if balance = 0 then SummaryMsg.fullyPaid else SummaryMsg.outstanding balance

/-- The document `generate_ledger_pdf` produces, stripped of styling:
the customer header field it subscripts, the ledger data rows, and the
summary line. -/
structure LedgerPdf where
  customerName : String
  rows : List LedgerRow
  summary : SummaryMsg
  deriving DecidableEq

/-- `generate_ledger_pdf` (lines 373-650), keeping the computed content
and dropping fonts, colors and layout.  Subscripting `customer['name']`
requires an actual customer row, so the argument is a `Customer`. -/
def generate_ledger_pdf (customer : Customer) (services : List Service)
    (payments : List Payment) (total_charges total_received balance : ℤ) : LedgerPdf :=
  { customerName := customer.name
    rows := ledger_data services payments total_charges balance
    summary := summary_line balance }

/-- The response of the `bill` route: it always renders the template,
passing along the (possibly absent) customer row and the computed
totals. -/
inductive BillResponse where
  | page (customer : Option Customer) (services : List Service)
      (payments : List Payment) (total_charges total_received balance : ℤ)
  | notFound
  deriving DecidableEq

/-- The `bill` route (lines 303-336): fetch the customer, the services
(stored order) and the payments (ordered by date), compute the totals,
and render.  The handler has no missing-customer branch. -/
def bill (db : Db) (customer_id : Nat) : BillResponse :=
  let customer := findCustomer db customer_id
  let services := servicesFor db customer_id
  let payments := paymentsFor db customer_id
  BillResponse.page customer services payments
    (total_charges services) (total_received payments) (balance services payments)

/-- The response of the `download_pdf` route: the generated file, an
unhandled exception (HTTP 500), or a not-found response. -/
inductive PdfResponse where
  | file (pdf : LedgerPdf)
  | crash
  | notFound
  deriving DecidableEq

/-- The `download_pdf` route (lines 338-371): fetch the rows, compute
the totals, then call `generate_ledger_pdf`.  The handler has no
missing-customer branch: with an absent customer the totals are still
computed and `generate_ledger_pdf` raises a `TypeError` subscripting
`None`, modelled as `crash`. -/
def download_pdf (db : Db) (customer_id : Nat) : PdfResponse :=
  let customer := findCustomer db customer_id
  let services := servicesFor db customer_id
  let payments := paymentsFor db customer_id
  let tc := total_charges services
  let tr := total_received payments
  let bal := tc - tr
  match customer with
  | none => PdfResponse.crash
  | some c => PdfResponse.file (generate_ledger_pdf c services payments tc tr bal)

/-- The ledger rows as `download_pdf` builds them from the raw record
lists: totals computed as in lines 354-357, then `ledger_data`. -/
def pdfRows (services : List Service) (payments : List Payment) : List LedgerRow :=
  ledger_data services payments (total_charges services) (balance services payments)

/-- `edit_catalog_service` (lines 164-178): `UPDATE service_catalog SET
default_charge = ?, is_active = ? WHERE id = ?`.  Only the catalog
table is touched. -/
def edit_catalog_service (db : Db) (service_id : Nat)
    (default_charge : ℤ) (is_active : Nat) : Db :=
  { db with service_catalog := db.service_catalog.map (fun e =>
      if e.id = service_id then
        { e with default_charge := default_charge, is_active := is_active }
      else e) }

/-- The POST branch of `add_services` (lines 200-212): insert one
`services` row carrying the submitted name and charge.  The catalog
only seeds the form default; the row copies the submitted value and
keeps no reference to the catalog entry. -/
def add_services (db : Db) (customer_id : Nat) (service_name : String)
    (charge : ℤ) (new_id created_at : Nat) : Db :=
  { db with services :=
      db.services ++ [⟨new_id, customer_id, service_name, charge, created_at⟩] }

/-- `delete_multiple_services` (lines 252-271): with no submitted ids
the handler redirects without touching the database; otherwise it runs
one `DELETE FROM services WHERE id = ? AND customer_id = ?` per
submitted id. -/
def delete_multiple_services (db : Db) (customer_id : Nat)
    (service_ids : List Nat) : Db :=
  if service_ids.isEmpty then db
  else { db with services := service_ids.foldl (fun tbl sid =>
      tbl.filter (fun s => ¬ (s.id = sid ∧ s.customer_id = customer_id))) db.services }

/-! ### Characterisations of the generated rows -/

/-- Cumulative sums: the running-balance annotations of the charge
rows, starting from a given running balance. -/
def runningSums (acc : ℤ) : List ℤ → List ℤ
  | [] => []
  | x :: xs => (acc + x) :: runningSums (acc + x) xs

/-- Cumulative differences: the running-balance annotations of the
payment rows, starting from a given running balance. -/
def runningDiffs (acc : ℤ) : List ℤ → List ℤ
  | [] => []
  | x :: xs => (acc - x) :: runningDiffs (acc - x) xs

/-- The charge rows the services loop appends, starting from a given
running balance. -/
def chargeRowsFrom (acc : ℤ) : List Service → List LedgerRow
  | [] => []
  | s :: ss =>
      ⟨Role.charge, some s.created_at, s.service_name, some s.charge, none, acc + s.charge⟩
        :: chargeRowsFrom (acc + s.charge) ss

/-- The payment rows the payments loop appends, starting from a given
running balance. -/
def paymentRowsFrom (acc : ℤ) : List Payment → List LedgerRow
  | [] => []
  | p :: ps =>
      ⟨Role.payment, some p.date, "Payment Received", none, some p.amount, acc - p.amount⟩
        :: paymentRowsFrom (acc - p.amount) ps

/-- The rows of one role, in order of appearance. -/
def rowsWithRole (rows : List LedgerRow) (ρ : Role) : List LedgerRow :=
  rows.filter fun r => r.role = ρ

/-- The running balance on the last generated row. -/
def lastBalance (rows : List LedgerRow) : Option ℤ :=
  rows.getLast?.map fun r => r.balance

/-- A store whose services table holds two rows for customer 1 out of
creation-time order: the charge created later sits first in stored
order (the `services` query has no ORDER BY, so the rows reach the
ledger in this order). -/
def C3db : Db :=
  ⟨[⟨1, "Asha", "9021674500", "Vita", "BoI", 500000⟩],
   [⟨2, 1, "Agreement", 200, 20240205⟩, ⟨1, 1, "Xerox", 100, 20240101⟩],
   [], []⟩

/-- A store where payment id 1 (dated 2024-01-10) was entered before
payment id 2 (dated 2024-01-05): the earlier-dated payment is the
later-entered row. -/
def C3payDb : Db :=
  ⟨[⟨1, "Asha", "9021674500", "Vita", "BoI", 500000⟩], [],
   [⟨1, 1, 20240110, 150⟩, ⟨2, 1, 20240105, 200⟩], []⟩

/-- A store with charge and payment rows for customer 1 but no customer
row with id 1: the customer lookup returns no record. -/
def C7db : Db :=
  ⟨[], [⟨1, 1, "Xerox", 100, 20240101⟩], [⟨1, 1, 20240110, 150⟩], []⟩

lemma foldl_add_charges (ss : List Service) (a : ℤ) :
    ss.foldl (fun acc s => acc + s.charge) a = a + (ss.map fun s => s.charge).sum := by
  induction ss generalizing a with
  | nil => simp
  | cons s ss ih => simp [ih, add_assoc]

lemma total_charges_eq_sum (ss : List Service) :
    total_charges ss = (ss.map fun s => s.charge).sum := by
  simp [total_charges, foldl_add_charges]

lemma foldl_add_amounts (ps : List Payment) (a : ℤ) :
    ps.foldl (fun acc p => acc + p.amount) a = a + (ps.map fun p => p.amount).sum := by
  induction ps generalizing a with
  | nil => simp
  | cons p ps ih => simp [ih, add_assoc]

lemma total_received_eq_sum (ps : List Payment) :
    total_received ps = (ps.map fun p => p.amount).sum := by
  simp [total_received, foldl_add_amounts]

lemma foldl_chargeStep_eq (ss : List Service) :
    ∀ (rows : List LedgerRow) (acc : ℤ),
      ss.foldl chargeStep (rows, acc) =
        (rows ++ chargeRowsFrom acc ss, acc + (ss.map fun s => s.charge).sum) := by
  induction ss with
  | nil => intro rows acc; simp [chargeRowsFrom]
  | cons s ss ih =>
      intro rows acc
      simp only [List.foldl_cons, chargeStep]
      rw [ih]
      simp [chargeRowsFrom, add_assoc]

lemma foldl_paymentStep_eq (ps : List Payment) :
    ∀ (rows : List LedgerRow) (acc : ℤ),
      ps.foldl paymentStep (rows, acc) =
        (rows ++ paymentRowsFrom acc ps, acc - (ps.map fun p => p.amount).sum) := by
  induction ps with
  | nil => intro rows acc; simp [paymentRowsFrom]
  | cons p ps ih =>
      intro rows acc
      simp only [List.foldl_cons, paymentStep]
      rw [ih]
      simp [paymentRowsFrom, sub_sub]

/-- Closed form of the row construction: charge rows from 0, then the
optional subtotal row, then payment rows from the accumulated charge
total, then the final balance row. -/
lemma ledger_data_eq (services : List Service) (payments : List Payment) (tc bal : ℤ) :
    ledger_data services payments tc bal =
      chargeRowsFrom 0 services
        ++ ((if services.isEmpty then [] else [subtotalRow tc])
        ++ (paymentRowsFrom (total_charges services) payments ++ [finalRow bal])) := by
  simp only [ledger_data, foldl_chargeStep_eq, foldl_paymentStep_eq]
  by_cases h : services.isEmpty
  · simp [h, total_charges_eq_sum, List.append_assoc]
  · simp [h, total_charges_eq_sum, List.append_assoc]

lemma chargeRowsFrom_balances (ss : List Service) :
    ∀ acc : ℤ, (chargeRowsFrom acc ss).map (fun r => r.balance) =
      runningSums acc (ss.map fun s => s.charge) := by
  induction ss with
  | nil => intro acc; simp [chargeRowsFrom, runningSums]
  | cons s ss ih => intro acc; simp [chargeRowsFrom, runningSums, ih]

lemma paymentRowsFrom_balances (ps : List Payment) :
    ∀ acc : ℤ, (paymentRowsFrom acc ps).map (fun r => r.balance) =
      runningDiffs acc (ps.map fun p => p.amount) := by
  induction ps with
  | nil => intro acc; simp [paymentRowsFrom, runningDiffs]
  | cons p ps ih => intro acc; simp [paymentRowsFrom, runningDiffs, ih]

lemma chargeRowsFrom_roles (ss : List Service) :
    ∀ acc : ℤ, (chargeRowsFrom acc ss).map (fun r => r.role) =
      List.replicate ss.length Role.charge := by
  induction ss with
  | nil => intro acc; simp [chargeRowsFrom]
  | cons s ss ih => intro acc; simp [chargeRowsFrom, ih, List.replicate_succ]

lemma paymentRowsFrom_roles (ps : List Payment) :
    ∀ acc : ℤ, (paymentRowsFrom acc ps).map (fun r => r.role) =
      List.replicate ps.length Role.payment := by
  induction ps with
  | nil => intro acc; simp [paymentRowsFrom]
  | cons p ps ih => intro acc; simp [paymentRowsFrom, ih, List.replicate_succ]

lemma chargeRowsFrom_display (ss : List Service) :
    ∀ acc : ℤ, (chargeRowsFrom acc ss).map (fun r => (r.date, r.particulars, r.credit)) =
      ss.map (fun s => (some s.created_at, s.service_name, some s.charge)) := by
  induction ss with
  | nil => intro acc; simp [chargeRowsFrom]
  | cons s ss ih => intro acc; simp [chargeRowsFrom, ih]

lemma paymentRowsFrom_display (ps : List Payment) :
    ∀ acc : ℤ, (paymentRowsFrom acc ps).map (fun r => (r.date, r.received)) =
      ps.map (fun p => (some p.date, some p.amount)) := by
  induction ps with
  | nil => intro acc; simp [paymentRowsFrom]
  | cons p ps ih => intro acc; simp [paymentRowsFrom, ih]

lemma paymentRowsFrom_dates (ps : List Payment) :
    ∀ acc : ℤ, (paymentRowsFrom acc ps).map (fun r => r.date.getD 0) =
      ps.map (fun p => p.date) := by
  induction ps with
  | nil => intro acc; simp [paymentRowsFrom]
  | cons p ps ih => intro acc; simp [paymentRowsFrom, ih]

lemma rowsWithRole_append (l₁ l₂ : List LedgerRow) (ρ : Role) :
    rowsWithRole (l₁ ++ l₂) ρ = rowsWithRole l₁ ρ ++ rowsWithRole l₂ ρ := by
  simp [rowsWithRole]

lemma mem_chargeRowsFrom_role (ss : List Service) :
    ∀ (acc : ℤ) (r : LedgerRow), r ∈ chargeRowsFrom acc ss → r.role = Role.charge := by
  induction ss with
  | nil => intro acc r h; simp [chargeRowsFrom] at h
  | cons s ss ih =>
      intro acc r h
      simp only [chargeRowsFrom, List.mem_cons] at h
      rcases h with h | h
      · rw [h]
      · exact ih _ _ h

lemma mem_paymentRowsFrom_role (ps : List Payment) :
    ∀ (acc : ℤ) (r : LedgerRow), r ∈ paymentRowsFrom acc ps → r.role = Role.payment := by
  induction ps with
  | nil => intro acc r h; simp [paymentRowsFrom] at h
  | cons p ps ih =>
      intro acc r h
      simp only [paymentRowsFrom, List.mem_cons] at h
      rcases h with h | h
      · rw [h]
      · exact ih _ _ h

lemma rowsWithRole_chargeRowsFrom (ss : List Service) (acc : ℤ) (ρ : Role) :
    rowsWithRole (chargeRowsFrom acc ss) ρ =
      if ρ = Role.charge then chargeRowsFrom acc ss else [] := by
  by_cases hρ : ρ = Role.charge
  · subst hρ
    rw [if_pos rfl, rowsWithRole, List.filter_eq_self]
    intro a ha
    simp [mem_chargeRowsFrom_role ss acc a ha]
  · rw [rowsWithRole, if_neg hρ, List.filter_eq_nil_iff]
    intro a ha
    simp only [mem_chargeRowsFrom_role ss acc a ha, decide_eq_true_eq]
    exact fun he => hρ he.symm

lemma rowsWithRole_paymentRowsFrom (ps : List Payment) (acc : ℤ) (ρ : Role) :
    rowsWithRole (paymentRowsFrom acc ps) ρ =
      if ρ = Role.payment then paymentRowsFrom acc ps else [] := by
  by_cases hρ : ρ = Role.payment
  · subst hρ
    rw [if_pos rfl, rowsWithRole, List.filter_eq_self]
    intro a ha
    simp [mem_paymentRowsFrom_role ps acc a ha]
  · rw [rowsWithRole, if_neg hρ, List.filter_eq_nil_iff]
    intro a ha
    simp only [mem_paymentRowsFrom_role ps acc a ha, decide_eq_true_eq]
    exact fun he => hρ he.symm

lemma rowsWithRole_nil (ρ : Role) : rowsWithRole [] ρ = [] := rfl

lemma rowsWithRole_cons (r : LedgerRow) (rows : List LedgerRow) (ρ : Role) :
    rowsWithRole (r :: rows) ρ =
      if r.role = ρ then r :: rowsWithRole rows ρ else rowsWithRole rows ρ := by
  by_cases h : r.role = ρ <;> simp [rowsWithRole, List.filter_cons, h]

lemma ledger_data_charge_rows (services : List Service) (payments : List Payment) (tc bal : ℤ) :
    rowsWithRole (ledger_data services payments tc bal) Role.charge =
      chargeRowsFrom 0 services := by
  rw [ledger_data_eq]
  by_cases h : services.isEmpty <;>
    simp [h, rowsWithRole_append, rowsWithRole_chargeRowsFrom, rowsWithRole_paymentRowsFrom,
      rowsWithRole_nil, rowsWithRole_cons, subtotalRow, finalRow]

lemma ledger_data_subtotal_rows (services : List Service) (payments : List Payment) (tc bal : ℤ) :
    rowsWithRole (ledger_data services payments tc bal) Role.chargeSubtotal =
      if services.isEmpty then [] else [subtotalRow tc] := by
  rw [ledger_data_eq]
  by_cases h : services.isEmpty <;>
    simp [h, rowsWithRole_append, rowsWithRole_chargeRowsFrom, rowsWithRole_paymentRowsFrom,
      rowsWithRole_nil, rowsWithRole_cons, subtotalRow, finalRow]

lemma ledger_data_payment_rows (services : List Service) (payments : List Payment) (tc bal : ℤ) :
    rowsWithRole (ledger_data services payments tc bal) Role.payment =
      paymentRowsFrom (total_charges services) payments := by
  rw [ledger_data_eq]
  by_cases h : services.isEmpty <;>
    simp [h, rowsWithRole_append, rowsWithRole_chargeRowsFrom, rowsWithRole_paymentRowsFrom,
      rowsWithRole_nil, rowsWithRole_cons, subtotalRow, finalRow]

lemma ledger_data_getLast (services : List Service) (payments : List Payment) (tc bal : ℤ) :
    (ledger_data services payments tc bal).getLast? = some (finalRow bal) := by
  rw [ledger_data_eq]
  simp

lemma lastBalance_pdfRows (services : List Service) (payments : List Payment) :
    lastBalance (pdfRows services payments) = some (balance services payments) := by
  simp [lastBalance, pdfRows, ledger_data_getLast, finalRow]

lemma ledger_data_roles (services : List Service) (payments : List Payment) (tc bal : ℤ) :
    (ledger_data services payments tc bal).map (fun r => r.role) =
      List.replicate services.length Role.charge
        ++ ((if services.isEmpty then [] else [Role.chargeSubtotal])
        ++ (List.replicate payments.length Role.payment ++ [Role.balanceFinal])) := by
  rw [ledger_data_eq]
  by_cases h : services.isEmpty <;>
    simp [h, chargeRowsFrom_roles, paymentRowsFrom_roles, subtotalRow, finalRow]

lemma paymentsFor_sorted (db : Db) (customer_id : Nat) :
    List.Pairwise dateLE (paymentsFor db customer_id) :=
  List.sorted_insertionSort dateLE _

lemma sortByDate_perm (l : List Payment) : (sortByDate l).Perm l :=
  List.perm_insertionSort dateLE l

/-- Iterated one-row deletes equal one filter over the conjunction of
the submitted ids. -/
lemma foldl_delete_filter (service_ids : List Nat) :
    ∀ (tbl : List Service) (cid : Nat),
      service_ids.foldl (fun tbl sid =>
          tbl.filter (fun s => ¬ (s.id = sid ∧ s.customer_id = cid))) tbl =
        tbl.filter (fun s => ¬ (s.customer_id = cid ∧ s.id ∈ service_ids)) := by
  induction service_ids with
  | nil => intro tbl cid; simp
  | cons i is ih =>
      intro tbl cid
      rw [List.foldl_cons, ih, List.filter_filter]
      apply List.filter_congr
      intro s _
      by_cases h1 : s.customer_id = cid <;> by_cases h2 : s.id = i <;>
        by_cases h3 : s.id ∈ is <;> simp [h1, h2, h3]

/-! ### Claims -/

/-- C1: for every set of charge and payment records of one customer,
`total_charges` is the sum of all charge amounts (0 when there are
none), `total_received` is the sum of all payment amounts (0 when
there are none), and `balance` equals `total_charges - total_received`
exactly, with no special handling of a negative result. -/
theorem C1_totals (services : List Service) (payments : List Payment) :
    total_charges services = (services.map fun s => s.charge).sum
    ∧ total_received payments = (payments.map fun p => p.amount).sum
    ∧ total_charges [] = 0
    ∧ total_received [] = 0
    ∧ balance services payments = total_charges services - total_received payments :=
  ⟨total_charges_eq_sum services, total_received_eq_sum payments, rfl, rfl, rfl⟩

/-- C2: for every set of charge and payment records of one customer,
the running balance on the last generated ledger row equals `balance`,
that is `total_charges - total_received`, however the charges and
payments interleave chronologically. -/
theorem C2_last_running_balance (services : List Service) (payments : List Payment) :
    lastBalance (pdfRows services payments) = some (balance services payments)
    ∧ balance services payments = total_charges services - total_received payments :=
  ⟨lastBalance_pdfRows services payments, rfl⟩

/-- C3 (counterexample): the claim that the ledger's charge rows appear
sorted by creation time ascending fails: the services query has no
ORDER BY and `generate_ledger_pdf` applies no sort, so on a store whose
rows sit out of creation order the charge-row dates are
`[20240205, 20240101]`, not ascending. -/
theorem C3_counterexample_charge_order :
    servicesFor C3db 1 = [⟨2, 1, "Agreement", 200, 20240205⟩, ⟨1, 1, "Xerox", 100, 20240101⟩]
    ∧ ¬ List.Pairwise (fun a b => a ≤ b)
        ((rowsWithRole (pdfRows (servicesFor C3db 1) (paymentsFor C3db 1)) Role.charge).map
          (fun r => r.date.getD 0)) := by
  decide

/-- C3 (amended): in the generated ledger rows, all charge rows appear
first in the order the storage layer returns them (no sort by creation
time is applied), then the subtotal row when present, then all payment
rows sorted by payment date ascending rather than by record id or
insertion order, then the final balance row; in particular, a payment
dated earlier than another but entered later appears earlier in the
ledger rows. -/
theorem C3_amended_row_order (db : Db) (customer_id : Nat) :
    (pdfRows (servicesFor db customer_id) (paymentsFor db customer_id)).map (fun r => r.role) =
        List.replicate (servicesFor db customer_id).length Role.charge
          ++ ((if (servicesFor db customer_id).isEmpty then [] else [Role.chargeSubtotal])
          ++ (List.replicate (paymentsFor db customer_id).length Role.payment
          ++ [Role.balanceFinal]))
    ∧ (rowsWithRole (pdfRows (servicesFor db customer_id) (paymentsFor db customer_id))
          Role.charge).map (fun r => (r.date, r.particulars, r.credit)) =
        (servicesFor db customer_id).map (fun s => (some s.created_at, s.service_name, some s.charge))
    ∧ List.Pairwise (fun a b => a ≤ b)
        ((rowsWithRole (pdfRows (servicesFor db customer_id) (paymentsFor db customer_id))
          Role.payment).map (fun r => r.date.getD 0))
    ∧ (rowsWithRole (pdfRows (servicesFor C3payDb 1) (paymentsFor C3payDb 1)) Role.payment).map
        (fun r => (r.date.getD 0, r.received)) = [(20240105, some 200), (20240110, some 150)] := by
  refine ⟨?_, ?_, ?_, by decide⟩
  · exact ledger_data_roles (servicesFor db customer_id) (paymentsFor db customer_id) _ _
  · rw [pdfRows, ledger_data_charge_rows, chargeRowsFrom_display]
  · rw [pdfRows, ledger_data_payment_rows, paymentRowsFrom_dates, List.pairwise_map]
    exact paymentsFor_sorted db customer_id

/-- C4: each charge row carries a running balance equal to the
cumulative charge amounts so far with no payments subtracted; the
subtotal row, present exactly when a charge exists, carries
`total_charges` in both its credit and balance cells; each payment row
carries the total of all charges minus the cumulative payment amounts
so far; and on charges of 100 and 200 with one payment of 150 the
balance column reads 100, 300, 300 (subtotal), 150, 150. -/
theorem C4_running_balances (services : List Service) (payments : List Payment) :
    (rowsWithRole (pdfRows services payments) Role.charge).map (fun r => r.balance) =
        runningSums 0 (services.map fun s => s.charge)
    ∧ (rowsWithRole (pdfRows services payments) Role.chargeSubtotal).map
        (fun r => (r.credit, r.balance)) =
        (if services.isEmpty then []
         else [(some (total_charges services), total_charges services)])
    ∧ (rowsWithRole (pdfRows services payments) Role.payment).map (fun r => r.balance) =
        runningDiffs (total_charges services) (payments.map fun p => p.amount)
    ∧ (pdfRows [⟨1, 1, "Xerox", 100, 20240101⟩, ⟨2, 1, "Agreement", 200, 20240105⟩]
          [⟨1, 1, 20240110, 150⟩]).map (fun r => r.balance) = [100, 300, 300, 150, 150] := by
  refine ⟨?_, ?_, ?_, by decide⟩
  · rw [pdfRows, ledger_data_charge_rows, chargeRowsFrom_balances]
  · rw [pdfRows, ledger_data_subtotal_rows]
    by_cases h : services.isEmpty <;> simp [h, subtotalRow]
  · rw [pdfRows, ledger_data_payment_rows, paymentRowsFrom_balances]

/-- C5: with no charges the generated rows contain no subtotal row but
still one row per payment and the final balance row; with no charges
and no payments all totals are 0 and the rows are exactly the final
balance row. -/
theorem C5_empty_cases (payments : List Payment) :
    rowsWithRole (pdfRows [] payments) Role.chargeSubtotal = []
    ∧ (rowsWithRole (pdfRows [] payments) Role.payment).map (fun r => (r.date, r.received)) =
        payments.map (fun p => (some p.date, some p.amount))
    ∧ lastBalance (pdfRows [] payments) = some (balance [] payments)
    ∧ total_charges [] = 0
    ∧ total_received [] = 0
    ∧ balance [] [] = 0
    ∧ pdfRows [] [] = [finalRow 0] := by
  refine ⟨?_, ?_, lastBalance_pdfRows [] payments, rfl, rfl, rfl, by decide⟩
  · rw [pdfRows, ledger_data_subtotal_rows]
    simp
  · rw [pdfRows, ledger_data_payment_rows, paymentRowsFrom_display]

/-- C6: the trailing summary line is chosen from exactly two fixed
messages: the fully-settled message appears exactly when
`balance == 0`, and the outstanding-amount message appears whenever
the balance is nonzero, a negative (overpayment) balance included. -/
theorem C6_summary_choice (b : ℤ) :
    (summary_line b = SummaryMsg.fullyPaid ↔ b = 0)
    ∧ (b ≠ 0 → summary_line b = SummaryMsg.outstanding b) := by
  refine ⟨⟨?_, ?_⟩, ?_⟩
  · intro h
    by_contra hb
    simp [summary_line, hb] at h
  · intro h
    simp [summary_line, h]
  · intro h
    simp [summary_line, h]

/-- C6 witness: with no charges and one payment of 500 the balance is
-500, and the outstanding-style message is still chosen. -/
theorem C6_summary_choice_witness :
    (-500 : ℤ) ≠ 0 ∧ summary_line (-500) = SummaryMsg.outstanding (-500) :=
  ⟨by decide, (C6_summary_choice (-500)).2 (by decide)⟩

/-- C7 (counterexample): on a store where the customer lookup for id 1
returns no record, neither `bill` nor `download_pdf` short-circuits
with a not-found response: `bill` still renders and `download_pdf`
proceeds past the totals computation. -/
theorem C7_counterexample_no_short_circuit :
    findCustomer C7db 1 = none
    ∧ bill C7db 1 ≠ BillResponse.notFound
    ∧ download_pdf C7db 1 ≠ PdfResponse.notFound := by
  decide

/-- C7 (amended): neither boundary handler checks for a missing
customer: whenever the lookup returns no record, `bill` still runs the
totals computation and renders the page with an absent customer, and
`download_pdf` still computes the totals and then crashes subscripting
the absent customer inside the statement generation (an unhandled
error, not a not-found response). -/
theorem C7_amended_no_customer_check (db : Db) (customer_id : Nat)
    (h : findCustomer db customer_id = none) :
    bill db customer_id = BillResponse.page none (servicesFor db customer_id)
        (paymentsFor db customer_id) (total_charges (servicesFor db customer_id))
        (total_received (paymentsFor db customer_id))
        (balance (servicesFor db customer_id) (paymentsFor db customer_id))
    ∧ download_pdf db customer_id = PdfResponse.crash := by
  constructor
  · simp [bill, h]
  · simp [download_pdf, h]

/-- C7 witness: the amended behaviour on the concrete store with no
customer row. -/
theorem C7_amended_no_customer_check_witness :
    findCustomer C7db 1 = none
    ∧ (bill C7db 1 = BillResponse.page none (servicesFor C7db 1) (paymentsFor C7db 1)
          (total_charges (servicesFor C7db 1)) (total_received (paymentsFor C7db 1))
          (balance (servicesFor C7db 1) (paymentsFor C7db 1))
        ∧ download_pdf C7db 1 = PdfResponse.crash) :=
  ⟨by decide, C7_amended_no_customer_check C7db 1 (by decide)⟩

/-- C8: two input collections holding the same charge records and the
same payment records in any order produce identical `total_charges`,
`total_received`, `balance`, and an identical final running
balance. -/
theorem C8_order_insensitive (s₁ s₂ : List Service) (p₁ p₂ : List Payment)
    (hs : s₁.Perm s₂) (hp : p₁.Perm p₂) :
    total_charges s₁ = total_charges s₂
    ∧ total_received p₁ = total_received p₂
    ∧ balance s₁ p₁ = balance s₂ p₂
    ∧ lastBalance (pdfRows s₁ p₁) = lastBalance (pdfRows s₂ p₂) := by
  have hc : total_charges s₁ = total_charges s₂ := by
    rw [total_charges_eq_sum, total_charges_eq_sum]
    exact (hs.map fun s => s.charge).sum_eq
  have hr : total_received p₁ = total_received p₂ := by
    rw [total_received_eq_sum, total_received_eq_sum]
    exact (hp.map fun p => p.amount).sum_eq
  have hb : balance s₁ p₁ = balance s₂ p₂ := by
    rw [balance, balance, hc, hr]
  exact ⟨hc, hr, hb, by rw [lastBalance_pdfRows, lastBalance_pdfRows, hb]⟩

/-- C8 witness: the invariance on concrete two-element collections
presented in both orders. -/
theorem C8_order_insensitive_witness :
    total_charges [⟨1, 1, "Xerox", 100, 20240101⟩, ⟨2, 1, "Agreement", 200, 20240105⟩]
        = total_charges [⟨2, 1, "Agreement", 200, 20240105⟩, ⟨1, 1, "Xerox", 100, 20240101⟩]
    ∧ total_received [⟨1, 1, 20240110, 150⟩, ⟨2, 1, 20240105, 50⟩]
        = total_received [⟨2, 1, 20240105, 50⟩, ⟨1, 1, 20240110, 150⟩]
    ∧ balance [⟨1, 1, "Xerox", 100, 20240101⟩, ⟨2, 1, "Agreement", 200, 20240105⟩]
          [⟨1, 1, 20240110, 150⟩, ⟨2, 1, 20240105, 50⟩]
        = balance [⟨2, 1, "Agreement", 200, 20240205⟩, ⟨1, 1, "Xerox", 100, 20240101⟩]
          [⟨2, 1, 20240105, 50⟩, ⟨1, 1, 20240110, 150⟩]
    ∧ lastBalance (pdfRows [⟨1, 1, "Xerox", 100, 20240101⟩, ⟨2, 1, "Agreement", 200, 20240105⟩]
          [⟨1, 1, 20240110, 150⟩, ⟨2, 1, 20240105, 50⟩])
        = lastBalance (pdfRows [⟨2, 1, "Agreement", 200, 20240205⟩, ⟨1, 1, "Xerox", 100, 20240101⟩]
          [⟨2, 1, 20240105, 50⟩, ⟨1, 1, 20240110, 150⟩]) :=
  C8_order_insensitive _ _ _ _ (by decide) (by decide)

/-- C9: editing a service-catalog entry (its default charge or active
flag) leaves the services table and every computation derived from it
unchanged: per-customer charge rows, their totals, and the ledger rows
are identical before and after the edit. -/
theorem C9_catalog_edit_frame (db : Db) (service_id : Nat) (default_charge : ℤ)
    (is_active : Nat) :
    (edit_catalog_service db service_id default_charge is_active).services = db.services
    ∧ (∀ customer_id, servicesFor (edit_catalog_service db service_id default_charge is_active)
        customer_id = servicesFor db customer_id)
    ∧ (∀ customer_id, total_charges (servicesFor
        (edit_catalog_service db service_id default_charge is_active) customer_id)
        = total_charges (servicesFor db customer_id))
    ∧ (∀ customer_id, pdfRows
        (servicesFor (edit_catalog_service db service_id default_charge is_active) customer_id)
        (paymentsFor (edit_catalog_service db service_id default_charge is_active) customer_id)
        = pdfRows (servicesFor db customer_id) (paymentsFor db customer_id)) :=
  ⟨rfl, fun _ => rfl, fun _ => rfl, fun _ => rfl⟩

/-- C10: deleting multiple services for a customer removes exactly the
service rows whose `customer_id` matches and whose id is in the
submitted list; every other service row and every other table is
unchanged, and an empty submission leaves the store untouched. -/
theorem C10_delete_multiple_frame (db : Db) (customer_id : Nat) (service_ids : List Nat) :
    (delete_multiple_services db customer_id service_ids).services =
        db.services.filter (fun s => ¬ (s.customer_id = customer_id ∧ s.id ∈ service_ids))
    ∧ delete_multiple_services db customer_id [] = db
    ∧ (delete_multiple_services db customer_id service_ids).customers = db.customers
    ∧ (delete_multiple_services db customer_id service_ids).payments = db.payments
    ∧ (delete_multiple_services db customer_id service_ids).service_catalog
        = db.service_catalog := by
  refine ⟨?_, rfl, ?_, ?_, ?_⟩
  · rw [delete_multiple_services]
    by_cases he : service_ids.isEmpty
    · rw [if_pos he]
      rw [List.isEmpty_iff.mp he]
      simp
    · rw [if_neg he]
      exact foldl_delete_filter service_ids db.services customer_id
  · rw [delete_multiple_services]
    split <;> rfl
  · rw [delete_multiple_services]
    split <;> rfl
  · rw [delete_multiple_services]
    split <;> rfl

end Billing
